import Mathlib

/-!
Shallow embedding of the arena_chat_db server (src/server.js, final revision,
plus the delete_message socket handler of the earlier revision kept in the
same file).  The database tables become lists, SQL queries become list
operations, socket emissions become an explicit event list, and each HTTP or
socket handler becomes a function from a database state and its request data
to the next state plus the observable output.
-/

/-- A row of the users table: users(id, email, password_hash, name, created_at).
Only id and name are read by the messaging core. -/
structure User where
  id : Nat
  name : String
deriving Repr, DecidableEq

/-- A row of the messages table of the final revision:
messages(id, sender_id, receiver_id, message_text, message_type, media_url,
file_size, duration, status, created_at).  Timestamps are modelled as Nat. -/
structure Message where
  id : Nat
  senderId : Nat
  receiverId : Nat
  messageText : String
  messageType : String
  mediaUrl : Option String
  fileSize : Option String
  duration : Option String
  status : String
  createdAt : Nat
deriving Repr, DecidableEq

/-- The database state: the users table, the messages table, the
deleted_messages table as (message_id, user_id) pairs, and the next SERIAL
id for messages. -/
structure DBState where
  users : List User
  messages : List Message
  deleted : List (Nat × Nat)
  nextId : Nat
deriving Repr, DecidableEq

/-- The wire payload of a new_message emission built in the send_message
handler (id, parsed sender and receiver ids, text, resolved sender name,
created_at timestamp, media fields, and the hardcoded status "sent"). -/
structure MessagePayload where
  id : Nat
  senderId : Nat
  receiverId : Nat
  messageText : String
  senderName : String
  timestamp : Nat
  messageType : String
  mediaUrl : Option String
  fileSize : Option String
  duration : Option String
  status : String
deriving Repr, DecidableEq

/-- Observable socket emissions.  Constructors carrying a room are io.to(room)
broadcasts to the personal room of that user id; the others are socket.emit
replies to the originating session only. -/
inductive OutEvent where
  | newMessage (room : Nat) (payload : MessagePayload)
  | messageError (error : String)
  | messageDeleted (room : Nat) (messageId : Nat)
  | socketMessageDeleted (messageId : Nat)
  | deleteError (error : String)
  | statusUpdate (room : Nat) (messageId : Nat) (status : String)
deriving Repr, DecidableEq

/-- Result of an HTTP route: the next database state, the HTTP status code of
the response, and the socket emissions issued by the route. -/
structure HttpResult where
  state : DBState
  status : Nat
  emits : List OutEvent
deriving Repr, DecidableEq

/-- The body of a send_message socket event.  A missing field is none; the
JS truthiness test also treats 0 and the empty string as missing. -/
structure SendData where
  senderId : Option Nat
  receiverId : Option Nat
  messageText : Option String
  messageType : Option String
  mediaUrl : Option String
  fileSize : Option String
  duration : Option String
deriving Repr, DecidableEq

/-- JS falsiness of an id field: undefined, null and 0 are all falsy. -/
def falsyId : Option Nat → Bool
  | none => true
  | some n => n == 0

/-- JS falsiness of a text field: undefined, null and the empty string. -/
def falsyStr : Option String → Bool
  | none => true
  | some s => s == ""

/-- SELECT name FROM users WHERE id = $1, with the rows[0]?.name fallback
to the string Unknown used by the send_message handler. -/
def lookupName (s : DBState) (uid : Nat) : String :=
  (((s.users.find? fun u => u.id == uid).map User.name).getD "Unknown")

/-- INSERT INTO deleted_messages (message_id, user_id) VALUES ($1, $2)
ON CONFLICT DO NOTHING.  A conflicting pair is a no-op; otherwise the
foreign keys on message_id and user_id must hold or the query raises,
modelled as none. -/
def insertMarker (s : DBState) (messageId userId : Nat) : Option DBState :=
  if (messageId, userId) ∈ s.deleted then
    some s
  else if (s.messages.any fun m => m.id == messageId)
      && (s.users.any fun u => u.id == userId) then
    some { s with deleted := s.deleted ++ [(messageId, userId)] }
  else
    none

/-- GET /api/messages/:user1Id/:user2Id of the final revision: join messages
with users on the sender, keep the rows of the (user1, user2) conversation
that have no deleted_messages marker for user1, ORDER BY created_at ASC. -/
def history (s : DBState) (user1 user2 : Nat) : List Message :=
  List.insertionSort (fun a b => a.createdAt ≤ b.createdAt)
    (s.messages.filter fun m =>
      (s.users.any fun u => u.id == m.senderId)
      && (((m.senderId == user1) && (m.receiverId == user2))
          || ((m.senderId == user2) && (m.receiverId == user1)))
      && !(s.deleted.any fun p => (p.2 == user1) && (p.1 == m.id)))

/-- The send_message socket handler of the final revision.  The handler
awaits two queries inside one try block: dbFail injects an external failure
of the INSERT (which also fails when a sender or receiver foreign key is
violated), reaching the catch with nothing persisted; nameFail injects a
failure of the SELECT name query that follows the INSERT, reaching the same
catch with the row already persisted, so only message_error is emitted and
no broadcast occurs although the row is durably stored.  now is the
CURRENT_TIMESTAMP the database assigns to created_at. -/
def sendMessage (s : DBState) (d : SendData) (dbFail nameFail : Bool) (now : Nat) :
    DBState × List OutEvent :=
  if falsyId d.senderId || falsyId d.receiverId || falsyStr d.messageText then
    (s, [OutEvent.messageError "Missing required fields"])
  else
    let sid := d.senderId.getD 0
    let rid := d.receiverId.getD 0
    if dbFail || !((s.users.any fun u => u.id == sid)
                   && (s.users.any fun u => u.id == rid)) then
      (s, [OutEvent.messageError "Failed to save message"])
    else
      let text := d.messageText.getD ""
      let mtype := d.messageType.getD "text"
      let newMsg : Message :=
        { id := s.nextId, senderId := sid, receiverId := rid,
          messageText := text, messageType := mtype, mediaUrl := d.mediaUrl,
          fileSize := d.fileSize, duration := d.duration, status := "sent",
          createdAt := now }
      let t : DBState :=
        { s with messages := s.messages ++ [newMsg], nextId := s.nextId + 1 }
      if nameFail then
        (t, [OutEvent.messageError "Failed to save message"])
      else
        let payload : MessagePayload :=
          { id := s.nextId, senderId := sid, receiverId := rid,
            messageText := text, senderName := lookupName s sid,
            timestamp := now, messageType := mtype, mediaUrl := d.mediaUrl,
            fileSize := d.fileSize, duration := d.duration, status := "sent" }
        (t, [OutEvent.newMessage rid payload, OutEvent.newMessage sid payload])

/-- DELETE /api/messages/delete-for-me: check the message exists with the
requester as sender or receiver (else 404), then insert the marker with
ON CONFLICT DO NOTHING (an exception there is the catch branch, 500). -/
def deleteForMe (s : DBState) (messageId userId : Nat) : HttpResult :=
  if s.messages.any fun m =>
      (m.id == messageId) && ((m.senderId == userId) || (m.receiverId == userId)) then
    match insertMarker s messageId userId with
    | some t => ⟨t, 200, []⟩
    | none => ⟨s, 500, []⟩
  else
    ⟨s, 404, []⟩

/-- DELETE /api/messages/delete-for-everyone: check the message exists with
the requester as its sender (else 403 for every failure), snapshot the row
joined with its sender for the notification, then DELETE FROM messages
before DELETE FROM deleted_messages.  Because deleted_messages.message_id
is a foreign key into messages with no ON DELETE CASCADE, the first DELETE
raises whenever any marker still references the row, so the catch responds
500 with nothing changed and nothing emitted; only a marker-free message is
actually removed, after which the second DELETE clears nothing and
message_deleted is emitted to the two rooms named by the snapshot. -/
def deleteForEveryone (s : DBState) (messageId userId : Nat) : HttpResult :=
  if s.messages.any fun m => (m.id == messageId) && (m.senderId == userId) then
    let details := (s.messages.filter fun m => m.id == messageId).filter
      fun m => s.users.any fun u => u.id == m.senderId
    if s.deleted.any fun p => p.1 == messageId then
      ⟨s, 500, []⟩
    else
      let t : DBState :=
        { s with messages := s.messages.filter fun m => !(m.id == messageId),
                 deleted := s.deleted.filter fun p => !(p.1 == messageId) }
      match details with
      | m :: _ =>
        ⟨t, 200, [OutEvent.messageDeleted m.senderId messageId,
                  OutEvent.messageDeleted m.receiverId messageId]⟩
      | [] => ⟨t, 200, []⟩
  else
    ⟨s, 403, []⟩

/-- The delete_message socket handler of the earlier revision kept in
src/server.js.  The for_me branch inserts the marker with no participant
check (only the foreign keys constrain it) and echoes message_deleted to the
requester; the for_everyone branch, when the requester is the sender of an
existing message, runs the same messages-then-markers DELETE order as the
HTTP route, so a marker still referencing the row makes the first DELETE
raise on the non-cascading foreign key and the catch emits delete_error with
no state change; when the sender check fails it does nothing at all. -/
def socketDeleteMessage (s : DBState) (messageId userId : Nat)
    (deleteType : String) : DBState × List OutEvent :=
  if deleteType == "for_me" then
    match insertMarker s messageId userId with
    | some t => (t, [OutEvent.socketMessageDeleted messageId])
    | none => (s, [OutEvent.deleteError "Failed to delete message"])
  else if deleteType == "for_everyone" then
    match s.messages.find? fun m => (m.id == messageId) && (m.senderId == userId) with
    | some m0 =>
      if s.deleted.any fun p => p.1 == messageId then
        (s, [OutEvent.deleteError "Failed to delete message"])
      else
        ({ s with messages := s.messages.filter fun m => !(m.id == messageId),
                  deleted := s.deleted.filter fun p => !(p.1 == messageId) },
         [OutEvent.messageDeleted m0.senderId messageId,
          OutEvent.messageDeleted m0.receiverId messageId])
    | none => (s, [])
  else
    (s, [])

/-- The message_status_update socket handler: UPDATE messages SET status = $1
WHERE id = $2 (no validation of the value, a no-op when no row matches), then
emit message_status_update to the room of the userId field of the event. -/
def messageStatusUpdate (s : DBState) (messageId : Nat) (status : String)
    (userId : Nat) : DBState × List OutEvent :=
  ({ s with messages := s.messages.map fun m =>
      if m.id == messageId then { m with status := status } else m },
   [OutEvent.statusUpdate userId messageId status])

/-- Freshness of the SERIAL id counter: every message row and every marker
references an id below nextId.  Holds in every state the database can reach,
since SERIAL never reuses ids. -/
def fresh (s : DBState) : Bool :=
  (s.messages.all fun m => m.id < s.nextId)
  && (s.deleted.all fun p => p.1 < s.nextId)

/-- Modelled from the spec: the rank of a message status in the order
sent, then delivered, then read, used only to state monotonicity. -/
def specStatusRank (st : String) : Nat :=
  if st == "sent" then 0 else if st == "delivered" then 1
  else if st == "read" then 2 else 3

instance : IsTotal Message (fun a b => a.createdAt ≤ b.createdAt) :=
  ⟨fun a b => Nat.le_total a.createdAt b.createdAt⟩

instance : IsTrans Message (fun a b => a.createdAt ≤ b.createdAt) :=
  ⟨fun _ _ _ h h2 => Nat.le_trans h h2⟩

/-- C7: for every database state and every pair of users A and B, the
sequence returned by history(A, B) is non-decreasing in createdAt,
regardless of how the stored messages were interleaved at insertion. -/
theorem c7_history_sorted (s : DBState) (a b : Nat) :
    (history s a b).Pairwise fun x y => x.createdAt ≤ y.createdAt :=
  List.sorted_insertionSort _ _

/-- C9: when the messageId of a message_status_update event matches no row,
the UPDATE is a silent no-op that does not abort the handler, and the
message_status_update broadcast to the room of the owner user is still
emitted. -/
theorem c9_status_update_missing (s : DBState) (mid : Nat) (st : String)
    (uid : Nat) (h : (s.messages.any fun m => m.id == mid) = false) :
    messageStatusUpdate s mid st uid = (s, [OutEvent.statusUpdate uid mid st]) := by
  unfold messageStatusUpdate
  have h2 := List.any_eq_false.mp h
  have hm : (s.messages.map fun m =>
      if m.id == mid then { m with status := st } else m) = s.messages := by
    have := List.map_congr_left (l := s.messages)
      (f := fun m => if m.id == mid then { m with status := st } else m) (g := id)
      (fun m hmem => by
        have hne : ¬ (m.id == mid) = true := h2 m hmem
        simp [hne])
    simpa using this
  rw [hm]

theorem c9_witness :
    ((⟨[⟨1, "A"⟩], [⟨1, 1, 2, "hi", "text", none, none, none, "sent", 5⟩], [], 2⟩ : DBState).messages.any
        fun m => m.id == 9) = false
    ∧ messageStatusUpdate
        ⟨[⟨1, "A"⟩], [⟨1, 1, 2, "hi", "text", none, none, none, "sent", 5⟩], [], 2⟩ 9 "read" 1
      = (⟨[⟨1, "A"⟩], [⟨1, 1, 2, "hi", "text", none, none, none, "sent", 5⟩], [], 2⟩,
         [OutEvent.statusUpdate 1 9 "read"]) :=
  ⟨by decide, c9_status_update_missing _ 9 "read" 1 (by decide)⟩

lemma insertMarker_cases (s : DBState) (mid uid : Nat) :
    insertMarker s mid uid = some s
    ∨ insertMarker s mid uid = some { s with deleted := s.deleted ++ [(mid, uid)] }
    ∨ insertMarker s mid uid = none := by
  unfold insertMarker
  split_ifs <;> simp

/-- C10: a delete-for-me request, through the HTTP route or through the
for_me branch of the delete_message socket handler, whether it succeeds or
fails, never touches the messages table and either leaves the markers
unchanged or appends exactly the one requested (messageId, userId) marker,
so no other marker is ever removed or modified by it. -/
theorem c10_delete_for_me_frame (s : DBState) (mid uid : Nat) :
    ((deleteForMe s mid uid).state.messages = s.messages
      ∧ ((deleteForMe s mid uid).state.deleted = s.deleted
          ∨ (deleteForMe s mid uid).state.deleted = s.deleted ++ [(mid, uid)]))
    ∧ ((socketDeleteMessage s mid uid "for_me").1.messages = s.messages
      ∧ ((socketDeleteMessage s mid uid "for_me").1.deleted = s.deleted
          ∨ (socketDeleteMessage s mid uid "for_me").1.deleted = s.deleted ++ [(mid, uid)])) := by
  have hins := insertMarker_cases s mid uid
  constructor
  · unfold deleteForMe
    by_cases hp : (s.messages.any fun m =>
        (m.id == mid) && ((m.senderId == uid) || (m.receiverId == uid))) = true
    · rw [if_pos hp]
      rcases hins with h | h | h <;> rw [h] <;> simp
    · rw [if_neg hp]
      simp
  · unfold socketDeleteMessage
    rw [if_pos (show (("for_me" : String) == "for_me") = true from by decide)]
    rcases hins with h | h | h <;> rw [h] <;> simp

def exUsers : List User := [⟨1, "A"⟩, ⟨2, "B"⟩, ⟨3, "C"⟩]

def exMsg : Message := ⟨1, 1, 2, "hi", "text", none, none, none, "sent", 5⟩

def exState : DBState := ⟨exUsers, [exMsg], [], 2⟩

lemma deleteForEveryone_messages_subset (s : DBState) (mid uid : Nat) :
    ∀ m ∈ (deleteForEveryone s mid uid).state.messages, m ∈ s.messages := by
  unfold deleteForEveryone
  by_cases hp : (s.messages.any fun m => (m.id == mid) && (m.senderId == uid)) = true
  · rw [if_pos hp]
    dsimp only
    by_cases hmk : (s.deleted.any fun p => p.1 == mid) = true
    · rw [if_pos hmk]
      intro m hm
      exact hm
    · rw [if_neg hmk]
      split
      · intro m hm
        exact (List.mem_filter.mp hm).1
      · intro m hm
        exact (List.mem_filter.mp hm).1
  · rw [if_neg hp]
    intro m hm
    exact hm

lemma socketForEveryone_messages_subset (s : DBState) (mid uid : Nat) :
    ∀ m ∈ (socketDeleteMessage s mid uid "for_everyone").1.messages, m ∈ s.messages := by
  unfold socketDeleteMessage
  rw [if_neg (show ¬ (("for_everyone" : String) == "for_me") = true from by decide)]
  rw [if_pos (show (("for_everyone" : String) == "for_everyone") = true from by decide)]
  split
  · by_cases hmk : (s.deleted.any fun p => p.1 == mid) = true
    · rw [if_pos hmk]
      intro m hm
      exact hm
    · rw [if_neg hmk]
      intro m hm
      exact (List.mem_filter.mp hm).1
  · intro m hm
    exact hm

lemma deleteForMe_messages_eq (s : DBState) (mid uid : Nat) :
    (deleteForMe s mid uid).state.messages = s.messages := by
  have hins := insertMarker_cases s mid uid
  unfold deleteForMe
  by_cases hp : (s.messages.any fun m =>
      (m.id == mid) && ((m.senderId == uid) || (m.receiverId == uid))) = true
  · rw [if_pos hp]
    rcases hins with h | h | h <;> rw [h]
  · rw [if_neg hp]

/-- C4 counterexample: a send whose senderId equals its receiverId is not
rejected: with user 1 present, a self-send persists a row and broadcasts
new_message twice to room 1, with no message_error, refuting the claim that
senderId = receiverId fails validation with no persistence. -/
theorem c4_counterexample :
    (sendMessage ⟨[⟨1, "A"⟩], [], [], 1⟩
        ⟨some 1, some 1, some "hi", none, none, none, none⟩ false false 7).1.messages
      = [⟨1, 1, 1, "hi", "text", none, none, none, "sent", 7⟩]
    ∧ (sendMessage ⟨[⟨1, "A"⟩], [], [], 1⟩
        ⟨some 1, some 1, some "hi", none, none, none, none⟩ false false 7).2
      = [OutEvent.newMessage 1 ⟨1, 1, 1, "hi", "A", 7, "text", none, none, none, "sent"⟩,
         OutEvent.newMessage 1 ⟨1, 1, 1, "hi", "A", 7, "text", none, none, none, "sent"⟩] := by
  decide

/-- C4 amended: when senderId, receiverId or the message body is missing or
falsy-empty, send_message emits message_error to the originating session only
and persists nothing; equality of senderId and receiverId is not checked. -/
theorem c4_send_validation (s : DBState) (d : SendData) (dbFail nameFail : Bool)
    (now : Nat)
    (h : (falsyId d.senderId || falsyId d.receiverId || falsyStr d.messageText) = true) :
    sendMessage s d dbFail nameFail now
      = (s, [OutEvent.messageError "Missing required fields"]) := by
  unfold sendMessage
  rw [if_pos h]

theorem c4_witness :
    (falsyId (SendData.mk none (some 2) (some "hi") none none none none).senderId
      || falsyId (SendData.mk none (some 2) (some "hi") none none none none).receiverId
      || falsyStr (SendData.mk none (some 2) (some "hi") none none none none).messageText) = true
    ∧ sendMessage exState ⟨none, some 2, some "hi", none, none, none, none⟩ false false 0
      = (exState, [OutEvent.messageError "Missing required fields"]) :=
  ⟨by decide, c4_send_validation exState _ false false 0 (by decide)⟩

/-- C8 counterexample: message_status_update writes whatever status the
client supplies, so a message whose stored status is read regresses to
delivered, violating the claimed sent-delivered-read monotonicity. -/
theorem c8_counterexample :
    (⟨exUsers, [⟨1, 1, 2, "hi", "text", none, none, none, "read", 5⟩], [], 2⟩ : DBState).messages
      = [⟨1, 1, 2, "hi", "text", none, none, none, "read", 5⟩]
    ∧ (messageStatusUpdate
        ⟨exUsers, [⟨1, 1, 2, "hi", "text", none, none, none, "read", 5⟩], [], 2⟩
        1 "delivered" 2).1.messages
      = [⟨1, 1, 2, "hi", "text", none, none, none, "delivered", 5⟩]
    ∧ specStatusRank "delivered" < specStatusRank "read" := by
  decide

/-- C8 amended: the status of a stored message is changed only by
message_status_update events, which overwrite it with exactly the supplied
value, with no validation of the value and no monotonicity enforcement; the
send path only appends new rows with status sent and leaves existing rows
unchanged, and the delete paths only remove rows, never editing one. -/
theorem c8_status_transitions (s : DBState) (mid uid : Nat) (st : String)
    (d : SendData) (dbFail nameFail : Bool) (now : Nat) :
    (∀ m ∈ (messageStatusUpdate s mid st uid).1.messages,
        m ∈ s.messages ∨ m.status = st)
    ∧ (∀ m ∈ (sendMessage s d dbFail nameFail now).1.messages,
        m ∈ s.messages ∨ m.status = "sent")
    ∧ (∀ m ∈ (deleteForMe s mid uid).state.messages, m ∈ s.messages)
    ∧ (∀ m ∈ (deleteForEveryone s mid uid).state.messages, m ∈ s.messages)
    ∧ (∀ m ∈ (socketDeleteMessage s mid uid "for_everyone").1.messages,
        m ∈ s.messages) := by
  refine ⟨?_, ?_, ?_, deleteForEveryone_messages_subset s mid uid,
    socketForEveryone_messages_subset s mid uid⟩
  · intro m hm
    unfold messageStatusUpdate at hm
    simp only at hm
    rcases List.mem_map.mp hm with ⟨a, ha, hfa⟩
    by_cases hid : (a.id == mid) = true
    · right
      rw [if_pos hid] at hfa
      rw [← hfa]
    · left
      rw [if_neg hid] at hfa
      rw [← hfa]
      exact ha
  · intro m hm
    unfold sendMessage at hm
    by_cases h1 : (falsyId d.senderId || falsyId d.receiverId || falsyStr d.messageText) = true
    · rw [if_pos h1] at hm
      exact Or.inl hm
    · rw [if_neg h1] at hm
      dsimp only at hm
      by_cases h2 : (dbFail || !((s.users.any fun u => u.id == d.senderId.getD 0)
            && (s.users.any fun u => u.id == d.receiverId.getD 0))) = true
      · rw [if_pos h2] at hm
        exact Or.inl hm
      · rw [if_neg h2] at hm
        by_cases h3 : nameFail = true
        · rw [if_pos h3] at hm
          rcases List.mem_append.mp hm with h | h
          · exact Or.inl h
          · right
            rcases List.mem_singleton.mp h with rfl
            rfl
        · rw [if_neg h3] at hm
          rcases List.mem_append.mp hm with h | h
          · exact Or.inl h
          · right
            rcases List.mem_singleton.mp h with rfl
            rfl
  · intro m hm
    rw [deleteForMe_messages_eq s mid uid] at hm
    exact hm

theorem c8_witness :
    (∀ m ∈ (messageStatusUpdate exState 1 "zzz" 2).1.messages,
        m ∈ exState.messages ∨ m.status = "zzz")
    ∧ (∀ m ∈ (sendMessage exState ⟨some 1, some 2, some "yo", none, none, none, none⟩
          false false 9).1.messages,
        m ∈ exState.messages ∨ m.status = "sent")
    ∧ (∀ m ∈ (deleteForMe exState 1 2).state.messages, m ∈ exState.messages)
    ∧ (∀ m ∈ (deleteForEveryone exState 1 2).state.messages, m ∈ exState.messages)
    ∧ (∀ m ∈ (socketDeleteMessage exState 1 2 "for_everyone").1.messages,
        m ∈ exState.messages) :=
  c8_status_transitions exState 1 2 "zzz" ⟨some 1, some 2, some "yo", none, none, none, none⟩
    false false 9

lemma insertMarker_some_of (s : DBState) (mid uid : Nat)
    (hm : (s.messages.any fun m => m.id == mid) = true)
    (hu : (s.users.any fun w => w.id == uid) = true) :
    ∃ t, insertMarker s mid uid = some t ∧ t.messages = s.messages
      ∧ t.users = s.users ∧ (mid, uid) ∈ t.deleted
      ∧ (t.deleted = s.deleted ∨ t.deleted = s.deleted ++ [(mid, uid)]) := by
  unfold insertMarker
  split_ifs with h1 h2
  · exact ⟨s, rfl, rfl, rfl, h1, Or.inl rfl⟩
  · exact ⟨_, rfl, rfl, rfl, List.mem_append.mpr (Or.inr (List.mem_singleton.mpr rfl)),
      Or.inr rfl⟩
  · rw [hm, hu] at h2
    simp at h2

lemma insertMarker_of_mem (s : DBState) (mid uid : Nat)
    (h : (mid, uid) ∈ s.deleted) : insertMarker s mid uid = some s := by
  unfold insertMarker
  rw [if_pos h]

/-- C3 counterexample: delete-for-everyone on a message id that does not
exist responds 403 Forbidden, not 404 NotFound, so the claimed NotFound
failure mode does not exist in the code. -/
theorem c3_counterexample :
    (∀ m ∈ exState.messages, m.id ≠ 9)
    ∧ (deleteForEveryone exState 9 1).status = 403
    ∧ (deleteForEveryone exState 9 1).status ≠ 404 := by
  decide

/-- C3 amended: whenever no stored message has the requested id with the
requester as its sender, whether because the message exists with another
sender or because it does not exist at all, the HTTP delete-for-everyone
route fails with the same 403 Forbidden response, leaving the message store
and markers intact and emitting nothing; the for_everyone branch of the
delete_message socket handler fails silently in the same situation, with no
state change and no event at all. -/
theorem c3_delete_for_everyone_failure (s : DBState) (mid uid : Nat)
    (h : (s.messages.any fun m => (m.id == mid) && (m.senderId == uid)) = false) :
    deleteForEveryone s mid uid = ⟨s, 403, []⟩
    ∧ socketDeleteMessage s mid uid "for_everyone" = (s, []) := by
  constructor
  · unfold deleteForEveryone
    rw [if_neg (by rw [h]; exact Bool.false_ne_true)]
  · unfold socketDeleteMessage
    rw [if_neg (show ¬ (("for_everyone" : String) == "for_me") = true from by decide)]
    rw [if_pos (show (("for_everyone" : String) == "for_everyone") = true from by decide)]
    have hfind : s.messages.find? (fun m => (m.id == mid) && (m.senderId == uid)) = none := by
      rw [List.find?_eq_none]
      intro x hx
      have := List.any_eq_false.mp h x hx
      simpa using this
    rw [hfind]

theorem c3_witness :
    ((exState.messages.any fun m => (m.id == 9) && (m.senderId == 1)) = false)
    ∧ (deleteForEveryone exState 9 1 = ⟨exState, 403, []⟩
        ∧ socketDeleteMessage exState 9 1 "for_everyone" = (exState, [])) :=
  ⟨by decide, c3_delete_for_everyone_failure exState 9 1 (by decide)⟩

/-- C5 counterexample: through the for_me branch of the delete_message
socket handler, user 3, who is neither sender nor receiver of message 1,
succeeds in recording a deletion marker and receives the message_deleted
echo, with no error: the claimed participant check does not exist on this
path. -/
theorem c5_counterexample :
    (∀ m ∈ exState.messages, m.senderId ≠ 3 ∧ m.receiverId ≠ 3)
    ∧ socketDeleteMessage exState 1 3 "for_me"
      = ({ exState with deleted := [(1, 3)] }, [OutEvent.socketMessageDeleted 1]) := by
  decide

/-- C5 amended: the HTTP delete-for-me route fails with 404 and leaves the
state intact unless the requester is a participant of the message, and a
successful call is idempotent (an immediately repeated call changes nothing
and succeeds again); the for_me branch of the delete_message socket handler
records the marker idempotently with no participant check at all, succeeding
for any existing user and message. -/
theorem c5_soft_delete (s : DBState) (mid uid : Nat) :
    ((s.messages.any fun m =>
        (m.id == mid) && ((m.senderId == uid) || (m.receiverId == uid))) = false →
      deleteForMe s mid uid = ⟨s, 404, []⟩)
    ∧ ((deleteForMe s mid uid).status = 200 →
        deleteForMe (deleteForMe s mid uid).state mid uid
          = ⟨(deleteForMe s mid uid).state, 200, []⟩)
    ∧ ((s.messages.any fun m => m.id == mid) = true →
       (s.users.any fun w => w.id == uid) = true →
        (socketDeleteMessage s mid uid "for_me").2 = [OutEvent.socketMessageDeleted mid]
        ∧ socketDeleteMessage (socketDeleteMessage s mid uid "for_me").1 mid uid "for_me"
          = ((socketDeleteMessage s mid uid "for_me").1,
             [OutEvent.socketMessageDeleted mid])) := by
  refine ⟨?_, ?_, ?_⟩
  · intro h
    unfold deleteForMe
    rw [if_neg (by rw [h]; exact Bool.false_ne_true)]
  · intro h200
    by_cases hp : (s.messages.any fun m =>
        (m.id == mid) && ((m.senderId == uid) || (m.receiverId == uid))) = true
    · cases hmk : insertMarker s mid uid with
      | none =>
        exfalso
        unfold deleteForMe at h200
        rw [if_pos hp, hmk] at h200
        simp at h200
      | some t =>
        have hr : deleteForMe s mid uid = ⟨t, 200, []⟩ := by
          unfold deleteForMe
          rw [if_pos hp, hmk]
        have htm : t.messages = s.messages := by
          unfold insertMarker at hmk
          split_ifs at hmk <;> cases hmk <;> rfl
        have htd : (mid, uid) ∈ t.deleted := by
          unfold insertMarker at hmk
          split_ifs at hmk with h1 h2
          · cases hmk
            exact h1
          · cases hmk
            exact List.mem_append.mpr (Or.inr (List.mem_singleton.mpr rfl))
        rw [hr]
        unfold deleteForMe
        rw [show (⟨t, 200, []⟩ : HttpResult).state = t from rfl]
        rw [htm, if_pos hp, insertMarker_of_mem t mid uid htd]
    · exfalso
      unfold deleteForMe at h200
      rw [if_neg hp] at h200
      simp at h200
  · intro hm hu
    obtain ⟨t, hmk, htm, htu, htd, _⟩ := insertMarker_some_of s mid uid hm hu
    have h1 : socketDeleteMessage s mid uid "for_me"
        = (t, [OutEvent.socketMessageDeleted mid]) := by
      unfold socketDeleteMessage
      rw [if_pos (show (("for_me" : String) == "for_me") = true from by decide), hmk]
    rw [h1]
    refine ⟨rfl, ?_⟩
    unfold socketDeleteMessage
    rw [if_pos (show (("for_me" : String) == "for_me") = true from by decide)]
    rw [show ((t, [OutEvent.socketMessageDeleted mid]) : DBState × List OutEvent).1 = t from rfl]
    rw [insertMarker_of_mem t mid uid htd]

theorem c5_witness :
    ((exState.messages.any fun m =>
        (m.id == 9) && ((m.senderId == 2) || (m.receiverId == 2))) = false →
      deleteForMe exState 9 2 = ⟨exState, 404, []⟩)
    ∧ ((deleteForMe exState 9 2).status = 200 →
        deleteForMe (deleteForMe exState 9 2).state 9 2
          = ⟨(deleteForMe exState 9 2).state, 200, []⟩)
    ∧ ((exState.messages.any fun m => m.id == 9) = true →
       (exState.users.any fun w => w.id == 2) = true →
        (socketDeleteMessage exState 9 2 "for_me").2 = [OutEvent.socketMessageDeleted 9]
        ∧ socketDeleteMessage (socketDeleteMessage exState 9 2 "for_me").1 9 2 "for_me"
          = ((socketDeleteMessage exState 9 2 "for_me").1,
             [OutEvent.socketMessageDeleted 9])) :=
  c5_soft_delete exState 9 2

lemma mem_history {s : DBState} {a b : Nat} {x : Message} :
    x ∈ history s a b ↔ x ∈ s.messages
      ∧ ((s.users.any fun u => u.id == x.senderId)
         && (((x.senderId == a) && (x.receiverId == b))
             || ((x.senderId == b) && (x.receiverId == a)))
         && !(s.deleted.any fun p => (p.2 == a) && (p.1 == x.id))) = true := by
  unfold history
  rw [List.mem_insertionSort, List.mem_filter]

/-- C6: after a successful delete-for-me by participant U on a message m of
the conversation between U and V, history(U, V) no longer returns m while
history(V, U) still does: only the markers owned by the requesting first
user of the query are applied to it. -/
theorem c6_delete_for_me_scope (s : DBState) (m : Message) (u v : Nat)
    (hm : m ∈ s.messages)
    (hpart : (m.senderId = u ∧ m.receiverId = v) ∨ (m.senderId = v ∧ m.receiverId = u))
    (huv : u ≠ v)
    (hv : (m.id, v) ∉ s.deleted)
    (huser : (s.users.any fun w => w.id == u) = true)
    (hsender : (s.users.any fun w => w.id == m.senderId) = true) :
    (deleteForMe s m.id u).status = 200
    ∧ (∀ x ∈ history (deleteForMe s m.id u).state u v, x.id ≠ m.id)
    ∧ m ∈ history (deleteForMe s m.id u).state v u := by
  have hmid : (s.messages.any fun x => x.id == m.id) = true :=
    List.any_eq_true.mpr ⟨m, hm, by simp⟩
  obtain ⟨t, hmk, htm, htu, htd, hcases⟩ := insertMarker_some_of s m.id u hmid huser
  have hp : (s.messages.any fun x =>
      (x.id == m.id) && ((x.senderId == u) || (x.receiverId == u))) = true := by
    refine List.any_eq_true.mpr ⟨m, hm, ?_⟩
    rcases hpart with ⟨h1, h2⟩ | ⟨h1, h2⟩ <;> simp [h1, h2]
  have hr : deleteForMe s m.id u = ⟨t, 200, []⟩ := by
    unfold deleteForMe
    rw [if_pos hp, hmk]
  rw [hr]
  refine ⟨rfl, ?_, ?_⟩
  · intro x hx
    rw [show (⟨t, 200, []⟩ : HttpResult).state = t from rfl] at hx
    rw [mem_history] at hx
    intro hxid
    have hcond := hx.2
    have hmark : (t.deleted.any fun p => (p.2 == u) && (p.1 == x.id)) = true := by
      refine List.any_eq_true.mpr ⟨(m.id, u), htd, ?_⟩
      simp [hxid]
    rw [hmark] at hcond
    simp at hcond
  · rw [show (⟨t, 200, []⟩ : HttpResult).state = t from rfl]
    rw [mem_history, htm, htu]
    refine ⟨hm, ?_⟩
    have hnomark : (t.deleted.any fun p => (p.2 == v) && (p.1 == m.id)) = false := by
      rcases hcases with h | h <;> rw [h]
      · refine List.any_eq_false.mpr ?_
        intro p hp2 hc
        obtain ⟨p1, p2⟩ := p
        simp only [Bool.and_eq_true, beq_iff_eq] at hc
        obtain ⟨h1, h2⟩ := hc
        subst h1
        subst h2
        exact hv hp2
      · refine List.any_eq_false.mpr ?_
        intro p hp2 hc
        rcases List.mem_append.mp hp2 with hmem | hmem
        · obtain ⟨p1, p2⟩ := p
          simp only [Bool.and_eq_true, beq_iff_eq] at hc
          obtain ⟨h1, h2⟩ := hc
          subst h1
          subst h2
          exact hv hmem
        · rcases List.mem_singleton.mp hmem with rfl
          simp only [Bool.and_eq_true, beq_iff_eq] at hc
          exact huv hc.1
    rw [hnomark]
    rcases hpart with ⟨h1, h2⟩ | ⟨h1, h2⟩ <;>
      simp [h1, h2] at hsender ⊢ <;> exact hsender

theorem c6_witness :
    (deleteForMe exState exMsg.id 1).status = 200
    ∧ (∀ x ∈ history (deleteForMe exState exMsg.id 1).state 1 2, x.id ≠ exMsg.id)
    ∧ exMsg ∈ history (deleteForMe exState exMsg.id 1).state 2 1 :=
  c6_delete_for_me_scope exState exMsg 1 2 (by decide) (Or.inl (by decide))
    (by decide) (by decide) (by decide) (by decide)

/-- C2: the claimed hard-delete behavior is what the spec intends, but the
route cannot perform it whenever a deletion marker exists: DELETE FROM
messages runs before DELETE FROM deleted_messages and the
deleted_messages.message_id foreign key has no ON DELETE CASCADE, so the
sender of message 1, requesting delete-for-everyone while the receiver holds
a delete-for-me marker (1, 2), gets a 500 with row, marker, and both
histories unchanged and no broadcast; the socket for_everyone branch fails
the same way with a delete_error; the identical request on the marker-free
state succeeds fully, isolating the marker as the trigger. -/
theorem c2_delete_for_everyone_fk_failure :
    (deleteForEveryone ⟨exUsers, [exMsg], [(1, 2)], 2⟩ 1 1).status = 500
    ∧ (deleteForEveryone ⟨exUsers, [exMsg], [(1, 2)], 2⟩ 1 1).state
        = ⟨exUsers, [exMsg], [(1, 2)], 2⟩
    ∧ (deleteForEveryone ⟨exUsers, [exMsg], [(1, 2)], 2⟩ 1 1).emits = []
    ∧ exMsg ∈ history (deleteForEveryone ⟨exUsers, [exMsg], [(1, 2)], 2⟩ 1 1).state 1 2
    ∧ socketDeleteMessage ⟨exUsers, [exMsg], [(1, 2)], 2⟩ 1 1 "for_everyone"
        = (⟨exUsers, [exMsg], [(1, 2)], 2⟩,
           [OutEvent.deleteError "Failed to delete message"])
    ∧ (deleteForEveryone ⟨exUsers, [exMsg], [], 2⟩ 1 1).status = 200
    ∧ (deleteForEveryone ⟨exUsers, [exMsg], [], 2⟩ 1 1).state.messages = []
    ∧ (deleteForEveryone ⟨exUsers, [exMsg], [], 2⟩ 1 1).state.deleted = []
    ∧ (deleteForEveryone ⟨exUsers, [exMsg], [], 2⟩ 1 1).emits
        = [OutEvent.messageDeleted 1 1, OutEvent.messageDeleted 2 1] := by
  decide

/-- C1 counterexample: with sender 1 and receiver 2 both present, the INSERT
succeeds and the following SELECT name fails, so the handler reaches the
catch: the new row id 2 is durably persisted and retrievable via
history(1, 2) of the resulting state, yet the only emission is message_error
and no new_message broadcast ever occurs, refuting the claimed iff between
delivery and retrievability. -/
theorem c1_counterexample :
    (sendMessage exState ⟨some 1, some 2, some "yo", none, none, none, none⟩
        false true 9).2
      = [OutEvent.messageError "Failed to save message"]
    ∧ (⟨2, 1, 2, "yo", "text", none, none, none, "sent", 9⟩ : Message)
        ∈ history (sendMessage exState ⟨some 1, some 2, some "yo", none, none, none, none⟩
            false true 9).1 1 2 := by
  decide

/-- C1 amended: persistence still gates every broadcast: a new_message
emission implies the new row is retrievable via history; a validated send
whose INSERT fails changes nothing and emits only message_error; but the
converse of the claimed iff fails: when the INSERT succeeds and the
post-INSERT sender-name SELECT fails, the row stays persisted and
retrievable while only message_error is emitted and no new_message is
broadcast.  The freshness hypothesis states what the SERIAL id counter
guarantees: every stored row and marker uses an id below nextId. -/
theorem c1_send_persist_before_broadcast (s : DBState) (d : SendData)
    (dbFail nameFail : Bool) (now : Nat) (hf : fresh s = true) :
    ((∃ room payload,
        OutEvent.newMessage room payload ∈ (sendMessage s d dbFail nameFail now).2) →
      (∃ m ∈ history (sendMessage s d dbFail nameFail now).1
          (d.senderId.getD 0) (d.receiverId.getD 0), s.nextId ≤ m.id))
    ∧ ((falsyId d.senderId || falsyId d.receiverId || falsyStr d.messageText) = false →
        dbFail = true →
        sendMessage s d dbFail nameFail now
          = (s, [OutEvent.messageError "Failed to save message"]))
    ∧ ((falsyId d.senderId || falsyId d.receiverId || falsyStr d.messageText) = false →
        dbFail = false → nameFail = true →
        ((s.users.any fun u => u.id == d.senderId.getD 0)
          && (s.users.any fun u => u.id == d.receiverId.getD 0)) = true →
        (sendMessage s d dbFail nameFail now).2
            = [OutEvent.messageError "Failed to save message"]
        ∧ (∃ m ∈ history (sendMessage s d dbFail nameFail now).1
              (d.senderId.getD 0) (d.receiverId.getD 0), s.nextId ≤ m.id)) := by
  have hfresh := hf
  simp only [fresh, Bool.and_eq_true, List.all_eq_true, decide_eq_true_eq] at hfresh
  obtain ⟨hfresh1, hfresh2⟩ := hfresh
  by_cases hval : (falsyId d.senderId || falsyId d.receiverId || falsyStr d.messageText) = true
  · have hr : sendMessage s d dbFail nameFail now
        = (s, [OutEvent.messageError "Missing required fields"]) := by
      unfold sendMessage
      rw [if_pos hval]
    refine ⟨?_, ?_, ?_⟩
    · rw [hr]
      rintro ⟨room, p, hmem⟩
      simp at hmem
    · intro h1 _
      rw [hval] at h1
      cases h1
    · intro h1 _ _ _
      rw [hval] at h1
      cases h1
  · rw [Bool.not_eq_true] at hval
    by_cases hdb : (dbFail || !((s.users.any fun u => u.id == d.senderId.getD 0)
        && (s.users.any fun u => u.id == d.receiverId.getD 0))) = true
    · have hr : sendMessage s d dbFail nameFail now
          = (s, [OutEvent.messageError "Failed to save message"]) := by
        unfold sendMessage
        rw [if_neg (by rw [hval]; exact Bool.false_ne_true)]
        dsimp only
        rw [if_pos hdb]
      refine ⟨?_, ?_, ?_⟩
      · rw [hr]
        rintro ⟨room, p, hmem⟩
        simp at hmem
      · intro _ _
        exact hr
      · intro _ hdbf _ hfk
        exfalso
        rw [hdbf, hfk] at hdb
        simp at hdb
    · rw [Bool.not_eq_true] at hdb
      have hAB : ((s.users.any fun u => u.id == d.senderId.getD 0) = true)
          ∧ ((s.users.any fun u => u.id == d.receiverId.getD 0) = true) := by
        revert hdb
        cases dbFail <;> simp
      have hmark : (s.deleted.any fun p =>
          (p.2 == d.senderId.getD 0) && (p.1 == s.nextId)) = false := by
        refine List.any_eq_false.mpr ?_
        intro p hp hc
        simp only [Bool.and_eq_true, beq_iff_eq] at hc
        exact absurd hc.2 (Nat.ne_of_lt (hfresh2 p hp))
      by_cases hnf : nameFail = true
      · have hr : sendMessage s d dbFail nameFail now
            = ({ s with
                  messages := s.messages ++
                    [{ id := s.nextId, senderId := d.senderId.getD 0,
                       receiverId := d.receiverId.getD 0,
                       messageText := d.messageText.getD "",
                       messageType := d.messageType.getD "text",
                       mediaUrl := d.mediaUrl, fileSize := d.fileSize,
                       duration := d.duration, status := "sent", createdAt := now }],
                  nextId := s.nextId + 1 },
               [OutEvent.messageError "Failed to save message"]) := by
          unfold sendMessage
          rw [if_neg (by rw [hval]; exact Bool.false_ne_true)]
          dsimp only
          rw [if_neg (by rw [hdb]; exact Bool.false_ne_true)]
          rw [if_pos hnf]
        refine ⟨?_, ?_, ?_⟩
        · rw [hr]
          rintro ⟨room, p, hmem⟩
          simp at hmem
        · intro _ hdbt
          rw [hdbt] at hdb
          simp at hdb
        · intro _ _ _ _
          rw [hr]
          refine ⟨rfl, ?_⟩
          refine ⟨{ id := s.nextId, senderId := d.senderId.getD 0,
                    receiverId := d.receiverId.getD 0,
                    messageText := d.messageText.getD "",
                    messageType := d.messageType.getD "text",
                    mediaUrl := d.mediaUrl, fileSize := d.fileSize,
                    duration := d.duration, status := "sent",
                    createdAt := now }, ?_, Nat.le_refl _⟩
          rw [mem_history]
          refine ⟨List.mem_append.mpr (Or.inr (List.mem_singleton.mpr rfl)), ?_⟩
          simp [hAB.1, hmark]
      · rw [Bool.not_eq_true] at hnf
        have hr : sendMessage s d dbFail nameFail now
            = ({ s with
                  messages := s.messages ++
                    [{ id := s.nextId, senderId := d.senderId.getD 0,
                       receiverId := d.receiverId.getD 0,
                       messageText := d.messageText.getD "",
                       messageType := d.messageType.getD "text",
                       mediaUrl := d.mediaUrl, fileSize := d.fileSize,
                       duration := d.duration, status := "sent", createdAt := now }],
                  nextId := s.nextId + 1 },
               [OutEvent.newMessage (d.receiverId.getD 0)
                  { id := s.nextId, senderId := d.senderId.getD 0,
                    receiverId := d.receiverId.getD 0,
                    messageText := d.messageText.getD "",
                    senderName := lookupName s (d.senderId.getD 0), timestamp := now,
                    messageType := d.messageType.getD "text", mediaUrl := d.mediaUrl,
                    fileSize := d.fileSize, duration := d.duration, status := "sent" },
                OutEvent.newMessage (d.senderId.getD 0)
                  { id := s.nextId, senderId := d.senderId.getD 0,
                    receiverId := d.receiverId.getD 0,
                    messageText := d.messageText.getD "",
                    senderName := lookupName s (d.senderId.getD 0), timestamp := now,
                    messageType := d.messageType.getD "text", mediaUrl := d.mediaUrl,
                    fileSize := d.fileSize, duration := d.duration, status := "sent" }]) := by
          unfold sendMessage
          rw [if_neg (by rw [hval]; exact Bool.false_ne_true)]
          dsimp only
          rw [if_neg (by rw [hdb]; exact Bool.false_ne_true)]
          rw [if_neg (by rw [hnf]; exact Bool.false_ne_true)]
        refine ⟨?_, ?_, ?_⟩
        · intro _
          rw [hr]
          refine ⟨{ id := s.nextId, senderId := d.senderId.getD 0,
                    receiverId := d.receiverId.getD 0,
                    messageText := d.messageText.getD "",
                    messageType := d.messageType.getD "text",
                    mediaUrl := d.mediaUrl, fileSize := d.fileSize,
                    duration := d.duration, status := "sent",
                    createdAt := now }, ?_, Nat.le_refl _⟩
          rw [mem_history]
          refine ⟨List.mem_append.mpr (Or.inr (List.mem_singleton.mpr rfl)), ?_⟩
          simp [hAB.1, hmark]
        · intro _ hdbt
          rw [hdbt] at hdb
          simp at hdb
        · intro _ _ hnft _
          rw [hnft] at hnf
          cases hnf

theorem c1_witness :
    fresh exState = true
    ∧ (((∃ room payload, OutEvent.newMessage room payload ∈
            (sendMessage exState ⟨some 1, some 2, some "yo", none, none, none, none⟩
              false false 9).2) →
          (∃ m ∈ history
              (sendMessage exState ⟨some 1, some 2, some "yo", none, none, none, none⟩
                false false 9).1
              ((some 1 : Option Nat).getD 0) ((some 2 : Option Nat).getD 0),
            exState.nextId ≤ m.id))
      ∧ ((falsyId (some 1) || falsyId (some 2) || falsyStr (some "yo")) = false →
          false = true →
          sendMessage exState ⟨some 1, some 2, some "yo", none, none, none, none⟩
            false false 9
            = (exState, [OutEvent.messageError "Failed to save message"]))
      ∧ ((falsyId (some 1) || falsyId (some 2) || falsyStr (some "yo")) = false →
          false = false → false = true →
          ((exState.users.any fun u => u.id == (some 1 : Option Nat).getD 0)
            && (exState.users.any fun u => u.id == (some 2 : Option Nat).getD 0)) = true →
          (sendMessage exState ⟨some 1, some 2, some "yo", none, none, none, none⟩
              false false 9).2 = [OutEvent.messageError "Failed to save message"]
          ∧ (∃ m ∈ history
                (sendMessage exState ⟨some 1, some 2, some "yo", none, none, none, none⟩
                  false false 9).1
                ((some 1 : Option Nat).getD 0) ((some 2 : Option Nat).getD 0),
              exState.nextId ≤ m.id))) :=
  ⟨by decide,
   c1_send_persist_before_broadcast exState ⟨some 1, some 2, some "yo", none, none, none, none⟩
     false false 9 (by decide)⟩

theorem c7_witness :
    (history exState 1 2).Pairwise (fun x y => x.createdAt ≤ y.createdAt) :=
  c7_history_sorted exState 1 2

theorem c10_witness :
    ((deleteForMe exState 1 2).state.messages = exState.messages
      ∧ ((deleteForMe exState 1 2).state.deleted = exState.deleted
          ∨ (deleteForMe exState 1 2).state.deleted = exState.deleted ++ [(1, 2)]))
    ∧ ((socketDeleteMessage exState 1 2 "for_me").1.messages = exState.messages
      ∧ ((socketDeleteMessage exState 1 2 "for_me").1.deleted = exState.deleted
          ∨ (socketDeleteMessage exState 1 2 "for_me").1.deleted
            = exState.deleted ++ [(1, 2)])) :=
  c10_delete_for_me_frame exState 1 2
